import Mathlib

/-!
Verification of the retrieval-augmented ingestion/retrieval core of the
physical-AI-robotics-textbook backend.

The Python sources under backend/ are shallowly embedded: pure helpers
(content hashing, deterministic point-id generation, result formatting,
metadata validation) become Lean functions; the stateful pipeline stages
become explicit state passing; external collaborators (the Cohere embedding
provider, the Qdrant vector index, the crawler, the filesystem) are
parameters: oracles giving the outcome of each external call.  Machine
integers are Nat with explicit reduction mod 2^32 where the source relies
on 32-bit behaviour (SHA-256); Python floats (similarity scores, thresholds)
are modelled as rationals; fallible calls return Except.
-/

set_option maxRecDepth 100000

/- ### SHA-256 (hashlib.sha256, as used by chunker.py and qdrant_storage.py) -/

/-- Reduce to a 32-bit word, the implicit word size of SHA-256 arithmetic. -/
def w32 (n : Nat) : Nat := n % 4294967296

/-- Right rotation of a 32-bit word by n bits. -/
def rotr32 (n x : Nat) : Nat := w32 ((x >>> n) ||| (x <<< (32 - n)))

/-- Bitwise complement within 32 bits. -/
def not32 (x : Nat) : Nat := x ^^^ 4294967295

def shaCh (x y z : Nat) : Nat := (x &&& y) ^^^ (not32 x &&& z)

def shaMaj (x y z : Nat) : Nat := (x &&& y) ^^^ (x &&& z) ^^^ (y &&& z)

def bigSigma0 (x : Nat) : Nat := rotr32 2 x ^^^ rotr32 13 x ^^^ rotr32 22 x

def bigSigma1 (x : Nat) : Nat := rotr32 6 x ^^^ rotr32 11 x ^^^ rotr32 25 x

def smallSigma0 (x : Nat) : Nat := rotr32 7 x ^^^ rotr32 18 x ^^^ (x >>> 3)

def smallSigma1 (x : Nat) : Nat := rotr32 17 x ^^^ rotr32 19 x ^^^ (x >>> 10)

/-- The 64 SHA-256 round constants. -/
def shaK : List Nat :=
  [1116352408, 1899447441, 3049323471, 3921009573, 961987163, 1508970993,
   2453635748, 2870763221, 3624381080, 310598401, 607225278, 1426881987,
   1925078388, 2162078206, 2614888103, 3248222580, 3835390401, 4022224774,
   264347078, 604807628, 770255983, 1249150122, 1555081692, 1996064986,
   2554220882, 2821834349, 2952996808, 3210313671, 3336571891, 3584528711,
   113926993, 338241895, 666307205, 773529912, 1294757372, 1396182291,
   1695183700, 1986661051, 2177026350, 2456956037, 2730485921, 2820302411,
   3259730800, 3345764771, 3516065817, 3600352804, 4094571909, 275423344,
   430227734, 506948616, 659060556, 883997877, 958139571, 1322822218,
   1537002063, 1747873779, 1955562222, 2024104815, 2227730452, 2361852424,
   2428436474, 2756734187, 3204031479, 3329325298]

/-- Big-endian bytes of a 64-bit length field. -/
def be64 (n : Nat) : List Nat :=
  [(n >>> 56) &&& 255, (n >>> 48) &&& 255, (n >>> 40) &&& 255, (n >>> 32) &&& 255,
   (n >>> 24) &&& 255, (n >>> 16) &&& 255, (n >>> 8) &&& 255, n &&& 255]

/-- SHA-256 padding: append 0x80, zero bytes, and the 64-bit bit length. -/
def padMsg (msg : List Nat) : List Nat :=
  let L := msg.length
  let zeros := (64 - ((L + 9) % 64)) % 64
  msg ++ 128 :: List.replicate zeros 0 ++ be64 (8 * L)

/-- Group bytes into big-endian 32-bit words (first argument is fuel). -/
def toWordsAux : Nat → List Nat → List Nat
  | _, [] => []
  | 0, _ :: _ => []
  | f + 1, b0 :: b1 :: b2 :: b3 :: rest =>
      ((b0 <<< 24) + (b1 <<< 16) + (b2 <<< 8) + b3) :: toWordsAux f rest
  | _ + 1, _ => []

def toWords (bytes : List Nat) : List Nat := toWordsAux bytes.length bytes

/-- Group words into 16-word blocks (first argument is fuel). -/
def toBlocksAux : Nat → List Nat → List (List Nat)
  | _, [] => []
  | 0, _ :: _ => []
  | f + 1, wd :: ws => ((wd :: ws).take 16) :: toBlocksAux f ((wd :: ws).drop 16)

def toBlocks (ws : List Nat) : List (List Nat) := toBlocksAux ws.length ws

/-- Extend a 16-word block to the 64-word message schedule (fuel counts the
48 extension steps). -/
def extendW : Nat → List Nat → List Nat
  | 0, ws => ws
  | f + 1, ws =>
      let n := ws.length
      let nw := w32 (smallSigma1 (ws.getD (n - 2) 0) + ws.getD (n - 7) 0 +
                     smallSigma0 (ws.getD (n - 15) 0) + ws.getD (n - 16) 0)
      extendW f (ws ++ [nw])

/-- Working state of the compression function (registers a..h). -/
structure ShaState where
  a : Nat
  b : Nat
  c : Nat
  d : Nat
  e : Nat
  f : Nat
  g : Nat
  h : Nat

/-- One SHA-256 round, consuming a (round constant, schedule word) pair. -/
def shaRound (st : ShaState) (kw : Nat × Nat) : ShaState :=
  let t1 := w32 (st.h + bigSigma1 st.e + shaCh st.e st.f st.g + kw.1 + kw.2)
  let t2 := w32 (bigSigma0 st.a + shaMaj st.a st.b st.c)
  ⟨w32 (t1 + t2), st.a, st.b, st.c, w32 (st.d + t1), st.e, st.f, st.g⟩

/-- Compress one 16-word block into the running state. -/
def compressBlock (st : ShaState) (block : List Nat) : ShaState :=
  let ws := extendW 48 block
  let fin := (shaK.zip ws).foldl shaRound st
  ⟨w32 (st.a + fin.a), w32 (st.b + fin.b), w32 (st.c + fin.c), w32 (st.d + fin.d),
   w32 (st.e + fin.e), w32 (st.f + fin.f), w32 (st.g + fin.g), w32 (st.h + fin.h)⟩

/-- Big-endian bytes of one 32-bit word. -/
def be32 (n : Nat) : List Nat :=
  [(n >>> 24) &&& 255, (n >>> 16) &&& 255, (n >>> 8) &&& 255, n &&& 255]

/-- SHA-256 digest (32 bytes) of a byte string. -/
def sha256Bytes (msg : List Nat) : List Nat :=
  let st0 : ShaState :=
    ⟨1779033703, 3144134277, 1013904242, 2773480762,
     1359893119, 2600822924, 528734635, 1541459225⟩
  let fin := (toBlocks (toWords (padMsg msg))).foldl compressBlock st0
  be32 fin.a ++ be32 fin.b ++ be32 fin.c ++ be32 fin.d ++
  be32 fin.e ++ be32 fin.f ++ be32 fin.g ++ be32 fin.h

/-- Lowercase hex digit. -/
def hexDigit (n : Nat) : Char := if n < 10 then Char.ofNat (48 + n) else Char.ofNat (87 + n)

/-- Two lowercase hex digits of one byte. -/
def byteToHex (b : Nat) : List Char := [hexDigit (b / 16), hexDigit (b % 16)]

/-- UTF-8 encoding of one Unicode code point, as Python str.encode produces. -/
def cpUtf8 (c : Nat) : List Nat :=
  if c < 128 then [c]
  else if c < 2048 then [192 ||| (c >>> 6), 128 ||| (c &&& 63)]
  else if c < 65536 then
    [224 ||| (c >>> 12), 128 ||| ((c >>> 6) &&& 63), 128 ||| (c &&& 63)]
  else
    [240 ||| (c >>> 18), 128 ||| ((c >>> 12) &&& 63), 128 ||| ((c >>> 6) &&& 63), 128 ||| (c &&& 63)]

/-- UTF-8 bytes of a string. -/
def strUtf8 (s : String) : List Nat := (s.data.map (fun c => cpUtf8 c.toNat)).flatten

/-- Hex digest characters of the SHA-256 of a byte string. -/
def sha256HexChars (msg : List Nat) : List Char := ((sha256Bytes msg).map byteToHex).flatten

/-- Model of hashlib.sha256(s.encode("utf-8")).hexdigest(). -/
def sha256HexStr (s : String) : String := ⟨sha256HexChars (strUtf8 s)⟩

/-- Known-answer test: the FIPS 180 test vector for "abc" checks the SHA-256
embedding against the function the Python code calls. -/
theorem sha256_known_vector :
    sha256HexStr "abc" = "ba7816bf8f01cfea414140de5dae2223b00361a396177a9cb410ff61f20015ad" := by
  decide

/- ### QdrantManager.generate_point_id (qdrant_storage.py lines 74-86) -/

/-- Model of str(uuid.UUID(h)) for a 32-character lowercase hex string h:
hyphenate as 8-4-4-4-12. -/
def uuidFromHex (h : List Char) : List Char :=
  h.take 8 ++ ('-' :: ((h.drop 8).take 4 ++ ('-' :: ((h.drop 12).take 4 ++
    ('-' :: ((h.drop 16).take 4 ++ ('-' :: h.drop 20)))))))

/-- Model of QdrantManager.generate_point_id: UUID formed from the first 32
hex characters of the SHA-256 digest of the string "{url}:{text}". -/
def generate_point_id (text url : String) : String :=
  let content := url ++ ":" ++ text
  ⟨uuidFromHex ((sha256HexChars (strUtf8 content)).take 32)⟩

/- ### TextChunker (chunker.py) -/

/-- One chunk record, as the dict built by TextChunker.chunk_text. -/
structure ChunkRec where
  text : String
  m_source_url : String
  m_page_title : String
  m_section_headers : List String
  m_chunk_id : String
  m_chunk_index : Nat
  m_timestamp : String
  m_chunk_size_tokens : Nat
  hash : String
deriving DecidableEq

/-- Model of TextChunker.chunk_text.  The langchain splitter held by the
chunker instance is the external parameter split (a pure function of the
input text), the tiktoken token counter is encode, and datetime.utcnow()
is the opaque parameter ts. -/
def chunk_text (split : String → List String) (encode : String → Nat) (ts : String)
    (text url page_title : String) (section_headers : List String) : List ChunkRec :=
  (split text).enum.map fun p =>
    let chash := sha256HexStr p.2
    { text := p.2, m_source_url := url, m_page_title := page_title,
      m_section_headers := section_headers, m_chunk_id := chash, m_chunk_index := p.1,
      m_timestamp := ts, m_chunk_size_tokens := encode p.2, hash := chash }

/- ### CheckpointManager (checkpoint.py) -/

/-- In-memory checkpoint state: the Python set of processed hashes, modelled
as a duplicate-free list built by set-insertion. -/
def setAdd (cp : List String) (h : String) : List String :=
  if cp.contains h then cp else h :: cp

/-- Model of CheckpointManager.is_processed. -/
def is_processed (cp : List String) (h : String) : Bool := cp.contains h

/-- Model of CheckpointManager._save_checkpoint: the file write is an
external effect that may fail; writeOk says whether it succeeds. -/
def save_checkpoint (writeOk : Bool) (_cp : List String) : Except String Unit :=
  if writeOk then .ok () else .error "Failed to save checkpoint"

/-- Model of CheckpointManager.mark_processed: add the hash to the in-memory
set, then persist; a persistence failure is logged and swallowed, so the
updated in-memory state is returned in either case. -/
def mark_processed (writeOk : Bool) (cp : List String) (h : String) : List String :=
  let cp' := setAdd cp h
  match save_checkpoint writeOk cp' with
  | .ok _ => cp'
  | .error _ => cp'

/- ### CohereEmbedder (embedder.py) -/

/-- Outcome of one call to the external Cohere embed endpoint: a vector list,
a rate-limit signal (cohere.errors.TooManyRequestsError), or any other
exception. -/
inductive EmbedOutcome (Vec : Type) where
  | success (vs : List Vec)
  | rateLimit
  | genericError
deriving DecidableEq

/-- Accumulated statistics of CohereEmbedder (self.stats), per call. -/
structure EStats where
  total_chunks : Nat
  successful : Nat
  failed : Nat
  failed_chunks : List String
deriving DecidableEq

/-- How the per-batch retry loop of embed_chunks ends. -/
inductive BatchClass (Vec : Type) where
  | ok (vs : List Vec)
  | recFailed
  | dropped
deriving DecidableEq

/-- Classify the retry loop of one batch from the sequence of outcomes its
attempts would see (one entry per allowed attempt).  Mirrors embedder.py
lines 66-94: success breaks out; a generic error on the final attempt
records the batch as failed; a rate-limit (or generic error) on an earlier
attempt retries; a rate-limit on the final attempt lets the loop end with
nothing recorded. -/
def classifyAttempts {Vec : Type} : List (EmbedOutcome Vec) → BatchClass Vec
  | [] => .dropped
  | [.success vs] => .ok vs
  | [.rateLimit] => .dropped
  | [.genericError] => .recFailed
  | .success vs :: _ :: _ => .ok vs
  | .rateLimit :: o :: rest => classifyAttempts (o :: rest)
  | .genericError :: o :: rest => classifyAttempts (o :: rest)

/-- Split a list into consecutive batches of size bs (fuel-driven model of
range(0, len(chunks), batch_size) slicing). -/
def toBatchesAux (bs : Nat) : Nat → List String → List (List String)
  | _, [] => []
  | 0, _ :: _ => []
  | f + 1, c :: cs => ((c :: cs).take bs) :: toBatchesAux bs f ((c :: cs).drop bs)

def toBatches (bs : Nat) (chunks : List String) : List (List String) :=
  toBatchesAux bs chunks.length chunks

/-- Process the batches in order, from batch index i on; oracle gives the
outcome of the provider call for (batch index, attempt).  Returns the
accumulated vectors and the successful / failed / failed-sample statistics
deltas, in batch order. -/
def embedBatches {Vec : Type} (oracle : Nat → Nat → EmbedOutcome Vec) (m : Nat) :
    Nat → List (List String) → List Vec × Nat × Nat × List String
  | _, [] => ([], 0, 0, [])
  | i, b :: bs =>
    let cls := classifyAttempts ((List.range m).map (oracle i))
    let rest := embedBatches oracle m (i + 1) bs
    match cls with
    | .ok vs => (vs ++ rest.1, b.length + rest.2.1, rest.2.2.1, rest.2.2.2)
    | .recFailed => (rest.1, rest.2.1, b.length + rest.2.2.1, b.take 5 ++ rest.2.2.2)
    | .dropped => rest

/-- Model of CohereEmbedder.embed_chunks: batch, retry with backoff (the
sleep itself is timing, not modelled), accumulate vectors and statistics.
The provider is the oracle; batch_size is capped at 96 as in the source. -/
def embed_chunks {Vec : Type} (oracle : Nat → Nat → EmbedOutcome Vec)
    (batch_size max_retries : Nat) (chunks : List String) : List Vec × EStats :=
  let r := embedBatches oracle max_retries 0 (toBatches (min batch_size 96) chunks)
  (r.1, { total_chunks := chunks.length, successful := r.2.1, failed := r.2.2.1,
          failed_chunks := r.2.2.2 })

/-- Model of CohereEmbedder.get_stats. -/
def get_stats (s : EStats) : Nat × Nat × Nat × Rat :=
  (s.total_chunks, s.successful, s.failed,
   if s.total_chunks > 0 then (s.successful : Rat) / s.total_chunks else 0)

/- ### QdrantManager.upsert_embeddings (qdrant_storage.py lines 88-135) -/

/-- One stored point: deterministic id, vector, and the denormalized payload
built by upsert_embeddings. -/
structure QdrantPoint (Vec : Type) where
  id : String
  vector : Vec
  p_source_url : String
  p_page_title : String
  p_section_headers : List String
  p_chunk_id : String
  p_chunk_index : Nat
  p_chunk_text : String
  p_timestamp : String
  p_chunk_size_tokens : Nat
deriving DecidableEq

/-- The point list built in upsert_embeddings: pair chunks with vectors by
position (Python zip truncates to the shorter list) and attach metadata
payloads and deterministic ids. -/
def mkPoints {Vec : Type} (chunks : List ChunkRec) (embeddings : List Vec) :
    List (QdrantPoint Vec) :=
  (chunks.zip embeddings).map fun ce =>
    { id := generate_point_id ce.1.text ce.1.m_source_url, vector := ce.2,
      p_source_url := ce.1.m_source_url, p_page_title := ce.1.m_page_title,
      p_section_headers := ce.1.m_section_headers, p_chunk_id := ce.1.m_chunk_id,
      p_chunk_index := ce.1.m_chunk_index, p_chunk_text := ce.1.text,
      p_timestamp := ce.1.m_timestamp, p_chunk_size_tokens := ce.1.m_chunk_size_tokens }

/-- Model of QdrantManager.upsert_embeddings: build the points, issue one
batched write.  The external write may fail (upsertOk); failure is
re-raised to the caller. -/
def upsert_embeddings {Vec : Type} (upsertOk : Bool) (chunks : List ChunkRec)
    (embeddings : List Vec) : Except String (List (QdrantPoint Vec) × Nat) :=
  let points := mkPoints chunks embeddings
  if upsertOk then .ok (points, points.length) else .error "Failed to insert points"

/- ### IngestionPipeline.run (main.py lines 65-193) -/

/-- A crawled page as consumed by the chunking stage. -/
structure PageRec where
  url : String
  page_title : String
  section_headers : List String
  extracted_text : String

/-- Crawl statistics, produced by the crawler collaborator. -/
structure CrawlStats where
  visited : Nat
  failed : Nat
  failed_details : List String

/-- The summary/verification part of the final run report. -/
structure RunReport where
  status : String
  urls_crawled : Nat
  urls_failed : Nat
  total_chunks_created : Nat
  new_chunks : Nat
  total_embeddings_generated : Nat
  total_points_inserted : Nat
  insertion_success_rate : Rat
  vector_count : Nat
  collection_status : String
  errors : List String

/-- Observable outcome of one pipeline run: the report, the final checkpoint
set, and the points written to the vector index. -/
structure RunOutcome (Vec : Type) where
  report : RunReport
  checkpoint : List String
  upserted : List (QdrantPoint Vec)

/-- Stage 2 of run: chunk every crawled page and concatenate. -/
def allChunks (split : String → List String) (encode : String → Nat) (ts : String)
    (pages : List PageRec) : List ChunkRec :=
  (pages.map fun p =>
    chunk_text split encode ts p.extracted_text p.url p.page_title p.section_headers).flatten

/-- Stage 3 of run: drop chunks whose content hash the checkpoint already
holds. -/
def newChunks (cp : List String) (chunks : List ChunkRec) : List ChunkRec :=
  chunks.filter fun c => ! is_processed cp c.hash

/-- The post-upsert marking loop of run: mark every chunk of the batch
processed, one mark_processed call each. -/
def markAll (writeOk : Bool) (cp : List String) (chunks : List ChunkRec) : List String :=
  chunks.foldl (fun s c => mark_processed writeOk s c.hash) cp

/-- Stage 4 of run: generate embeddings for the new chunks; the guarding
`if new_chunks:` branch returns empty vectors and default stats. -/
def embedStage {Vec : Type} (eo : Nat → Nat → EmbedOutcome Vec) (bsz m : Nat)
    (chunksNew : List ChunkRec) : List Vec × EStats :=
  match chunksNew with
  | [] => (([] : List Vec), (⟨0, 0, 0, []⟩ : EStats))
  | _ => embed_chunks eo bsz m (chunksNew.map (fun c => c.text))

/-- The Python truthiness condition `if new_chunks and embeddings:` guarding
stage 6 (upsert) and the post-upsert checkpoint marking. -/
def ingestCondition {Vec : Type} (chunksNew : List ChunkRec) (vs : List Vec) : Bool :=
  !chunksNew.isEmpty && !vs.isEmpty

/-- The final run report assembled at main.py 162-186. -/
def buildReport (cstats : CrawlStats) (chunksAll chunksNew : List ChunkRec)
    (estats : EStats) (count : Nat) (st : Nat × String) : RunReport :=
  { status := "success", urls_crawled := cstats.visited,
    urls_failed := cstats.failed, total_chunks_created := chunksAll.length,
    new_chunks := chunksNew.length,
    total_embeddings_generated := estats.successful,
    total_points_inserted := count,
    insertion_success_rate :=
      if chunksNew.length = 0 then 1 else (count : Rat) / chunksNew.length,
    vector_count := st.1, collection_status := st.2,
    errors := cstats.failed_details }

/-- Model of IngestionPipeline.run.  External effects are parameters: split /
encode / ts for the chunker collaborators, pages and cstats from the
crawler, eo the embedding provider oracle, initOk whether collection
initialization succeeds, upsertOk whether the batched write succeeds,
writeOk whether checkpoint file writes succeed, and qstats the collection
statistics read in the verify stage.  A raised exception is an error
result. -/
def pipelineRun {Vec : Type} (split : String → List String) (encode : String → Nat)
    (ts : String) (pages : List PageRec) (cstats : CrawlStats)
    (eo : Nat → Nat → EmbedOutcome Vec) (batch_size max_retries : Nat)
    (initOk upsertOk writeOk : Bool) (qstats : Except String (Nat × String))
    (clear_cp : Bool) (cp0 : List String) : Except String (RunOutcome Vec) :=
  let cp1 := if clear_cp then [] else cp0
  let chunksAll := allChunks split encode ts pages
  let chunksNew := newChunks cp1 chunksAll
  let er := embedStage eo batch_size max_retries chunksNew
  if initOk = false then .error "Failed to initialize collection"
  else
    match (if ingestCondition chunksNew er.1 then upsert_embeddings upsertOk chunksNew er.1
           else .ok ([], 0)) with
    | .error e => .error e
    | .ok pr =>
      let cp2 := if ingestCondition chunksNew er.1 then markAll writeOk cp1 chunksNew else cp1
      match qstats with
      | .error e => .error e
      | .ok st =>
        .ok { report := buildReport cstats chunksAll chunksNew er.2 pr.2 st,
              checkpoint := cp2, upserted := pr.1 }

/-- Report extractor for a run result (none when the run raised). -/
def runNewCount {Vec : Type} : Except String (RunOutcome Vec) → Option Nat
  | .ok o => some o.report.new_chunks
  | .error _ => none

/-- Inserted-points-count extractor for a run result. -/
def runInsertedCount {Vec : Type} : Except String (RunOutcome Vec) → Option Nat
  | .ok o => some o.report.total_points_inserted
  | .error _ => none

/-- Final checkpoint extractor for a run result. -/
def runCheckpoint {Vec : Type} : Except String (RunOutcome Vec) → List String
  | .ok o => o.checkpoint
  | .error _ => []

/-- Upserted-points extractor for a run result. -/
def runUpserted {Vec : Type} : Except String (RunOutcome Vec) → List (QdrantPoint Vec)
  | .ok o => o.upserted
  | .error _ => []

/- ### QueryEmbedder.embed_query and RetrieverClient.search (retrieve.py) -/

/-- Whitespace test matching Python str.strip's default character set on the
characters that occur in practice. -/
def pySpace (c : Char) : Bool :=
  c = ' ' || c = '\t' || c = '\n' || c = '\x0d' || c = '\x0b' || c = '\x0c'

/-- Model of the blank-query test `not query or not query.strip()`. -/
def blankQuery (q : String) : Bool := q.data.all pySpace

/-- The retry loop of embed_query, over the per-attempt provider outcomes:
first success wins; exhausting every attempt raises. -/
def embedAttempts {Vec : Type} : List (Option Vec) → Except String Vec
  | [] => .error "Failed to embed query"
  | some v :: _ => .ok v
  | none :: rest => embedAttempts rest

/-- Model of QueryEmbedder.embed_query: reject a blank query with a
ValueError, then retry the provider call (oracle eo per attempt) up to
max_retries times. -/
def embed_query {Vec : Type} (eo : Nat → Option Vec) (max_retries : Nat)
    (q : String) : Except String Vec :=
  if blankQuery q then .error "Query cannot be empty"
  else embedAttempts ((List.range max_retries).map eo)

/-- A raw hit from qdrant_client.query_points: id, score, payload fields
(absent keys are none, matching payload.get defaults). -/
structure QPointR where
  pid : String
  score : Rat
  payload_chunk_text : Option String
  payload_source_url : Option String
  payload_page_title : Option String
  payload_section_headers : Option (List String)
  payload_chunk_index : Option Int
deriving DecidableEq

/-- One formatted search result (the dict built in retrieve.py 218-229). -/
structure SearchResultR where
  chunk_id : String
  chunk_text : String
  similarity_score : Rat
  rank : Nat
  m_source_url : String
  m_page_title : String
  m_section_headers : List String
  m_chunk_index : Int
deriving DecidableEq

/-- The response dict of RetrieverClient.search (fields consulted by the
claims; timing metrics are real time and are not modelled). -/
structure SearchResp where
  status : String
  query : String
  results : List SearchResultR
  total_results : Nat
  requested_top_k : Int
  error_code : Option String
  error_message : Option String
deriving DecidableEq

/-- Format one passing hit at 1-based rank rk. -/
def mkResult (p : QPointR) (rk : Nat) : SearchResultR :=
  { chunk_id := p.pid, chunk_text := p.payload_chunk_text.getD "",
    similarity_score := p.score, rank := rk,
    m_source_url := p.payload_source_url.getD "",
    m_page_title := p.payload_page_title.getD "",
    m_section_headers := p.payload_section_headers.getD [],
    m_chunk_index := p.payload_chunk_index.getD (-1) }

/-- The result-formatting loop of search (retrieve.py 213-231): keep hits
with score >= threshold, assigning dense 1-based ranks in input order. -/
def formatLoop (threshold : Rat) : Nat → List QPointR → List SearchResultR
  | _, [] => []
  | rk, p :: ps =>
    if threshold ≤ p.score then mkResult p (rk + 1) :: formatLoop threshold (rk + 1) ps
    else formatLoop threshold rk ps

def formatResults (threshold : Rat) (ps : List QPointR) : List SearchResultR :=
  formatLoop threshold 0 ps

/-- The success response built at retrieve.py 235-248. -/
def successResponse (q : String) (k : Int) (results : List SearchResultR) : SearchResp :=
  { status := "success", query := q, results := results, total_results := results.length,
    requested_top_k := k, error_code := none, error_message := none }

/-- The structured error response built in the except branch at
retrieve.py 256-273. -/
def errorResponse (q : String) (k : Int) (msg : String) : SearchResp :=
  { status := "error", query := q, results := [], total_results := 0,
    requested_top_k := k, error_code := some "SEARCH_FAILED", error_message := some msg }

/-- Model of RetrieverClient.search.  eo / m drive the query embedder; qs is
the vector-index oracle (query vector, limit) -> hits or failure.  The two
range validations raise (Except.error) before any external call; every
exception inside the try block becomes a structured error response. -/
def searchPipeline {Vec : Type} (eo : Nat → Option Vec) (m : Nat)
    (qs : Vec → Int → Except String (List QPointR)) (q : String) (top_k : Int)
    (threshold : Rat) : SearchResp :=
  match embed_query eo m q with
  | .error e => errorResponse q top_k e
  | .ok v =>
    match qs v top_k with
    | .error e => errorResponse q top_k e
    | .ok ps => successResponse q top_k (formatResults threshold ps)

def searchFn {Vec : Type} (eo : Nat → Option Vec) (m : Nat)
    (qs : Vec → Int → Except String (List QPointR)) (q : String) (top_k : Int)
    (threshold : Rat) : Except String SearchResp :=
  if ¬(1 ≤ top_k ∧ top_k ≤ 100) then .error "top_k must be between 1 and 100"
  else if ¬(0 ≤ threshold ∧ threshold ≤ 1) then
    .error "similarity_threshold must be between 0.0 and 1.0"
  else .ok (searchPipeline eo m qs q top_k threshold)

/- ### RetrieverClient.validate_metadata (retrieve.py lines 275-317) -/

/-- A Python value as found in a result's metadata dict. -/
inductive PyVal where
  | pnone
  | pstr (s : String)
  | pint (n : Int)
  | plist (xs : List String)
deriving DecidableEq

/-- Python truthiness test (falsy: None, empty string, zero, empty list). -/
def pyFalsy : PyVal → Bool
  | .pnone => true
  | .pstr s => s = ""
  | .pint n => n = 0
  | .plist xs => xs.isEmpty

/-- The metadata dict of one result, restricted to the four consulted keys;
none models an absent key. -/
structure RMeta where
  source_url : Option PyVal
  page_title : Option PyVal
  section_headers : Option PyVal
  chunk_index : Option PyVal

/-- Model of result.get("metadata", {}): an absent metadata dict behaves as
one with every key absent. -/
def getMeta : Option RMeta → RMeta
  | some m => m
  | none => ⟨none, none, none, none⟩

/-- The issue list one field contributes (retrieve.py 297-309): a missing
key is reported as missing; for chunk_index only a None value is empty
(0 is fine); for the other fields any falsy value is empty. -/
def checkField (idx : Nat) (fname : String) (isChunkIndex : Bool)
    (v : Option PyVal) : List String :=
  match v with
  | none => ["Result " ++ toString idx ++ ": missing field " ++ fname]
  | some x =>
    if isChunkIndex then
      if x = PyVal.pnone then ["Result " ++ toString idx ++ ": empty " ++ fname] else []
    else
      if pyFalsy x then ["Result " ++ toString idx ++ ": empty " ++ fname] else []

/-- All issues of one result, fields checked in source order. -/
def resultIssues (idx : Nat) (r : Option RMeta) : List String :=
  let m := getMeta r
  checkField idx "source_url" false m.source_url ++
  checkField idx "page_title" false m.page_title ++
  checkField idx "section_headers" false m.section_headers ++
  checkField idx "chunk_index" true m.chunk_index

/-- The per-result loop of validate_metadata, carrying the enumerate index:
returns (valid_results, invalid_results, issues). -/
def vmAux : Nat → List (Option RMeta) → Nat × Nat × List String
  | _, [] => (0, 0, [])
  | idx, r :: rs =>
    let iss := resultIssues idx r
    let rest := vmAux (idx + 1) rs
    if iss.isEmpty then (rest.1 + 1, rest.2.1, iss ++ rest.2.2)
    else (rest.1, rest.2.1 + 1, iss ++ rest.2.2)

/-- The validation report dict. -/
structure VReport where
  total_results : Nat
  valid_results : Nat
  invalid_results : Nat
  issues : List String

/-- Model of RetrieverClient.validate_metadata. -/
def validate_metadata (results : List (Option RMeta)) : VReport :=
  let r := vmAux 0 results
  { total_results := results.length, valid_results := r.1, invalid_results := r.2.1,
    issues := r.2.2 }

/-- Specification-side classification of one result, named from the spec's
words: complete required metadata means source_url, page_title and
section_headers are present and truthy, and chunk_index is present and not
None (so an index of 0 is complete). -/
def resultValidB (r : Option RMeta) : Bool :=
  let m := getMeta r
  (match m.source_url with | some x => !pyFalsy x | none => false) &&
  (match m.page_title with | some x => !pyFalsy x | none => false) &&
  (match m.section_headers with | some x => !pyFalsy x | none => false) &&
  (match m.chunk_index with
   | some PyVal.pnone => false
   | some _ => true
   | none => false)

/- ### Helper lemmas -/

theorem map_enumFrom_snd {α β : Type} (f : α → β) :
    ∀ (n : Nat) (l : List α), (List.enumFrom n l).map (fun p => f p.2) = l.map f := by
  intro n l
  induction l generalizing n with
  | nil => rfl
  | cons a as ih => simp [List.enumFrom_cons, ih]

theorem setAdd_mem_self (cp : List String) (h : String) :
    (setAdd cp h).contains h = true := by
  unfold setAdd
  by_cases hc : cp.contains h
  · rw [if_pos hc]; exact hc
  · rw [if_neg hc]; simp

/- ### C9: CheckpointManager.mark_processed never raises -/

/-- Claim C9.  CheckpointManager.mark_processed always updates the in-memory set
(its result is setAdd of the hash, whether or not the checkpoint-file write
succeeds), a failed file write is a real error of save_checkpoint that is
swallowed, and is_processed returns true for the hash immediately
afterwards, even when writeOk = false (nothing durably persisted). -/
theorem mark_processed_swallows_save_failure (writeOk : Bool) (cp : List String) (h : String) :
    mark_processed writeOk cp h = setAdd cp h ∧
    is_processed (mark_processed writeOk cp h) h = true ∧
    save_checkpoint false (setAdd cp h) = Except.error "Failed to save checkpoint" := by
  refine ⟨?_, ?_, rfl⟩
  · cases writeOk <;> rfl
  · have hm : mark_processed writeOk cp h = setAdd cp h := by cases writeOk <;> rfl
    rw [hm]
    exact setAdd_mem_self cp h

/- ### C8: the chunk content hash depends only on the chunk text -/

theorem chunk_text_hash_eq (split : String → List String) (encode : String → Nat)
    (ts url pt : String) (hs : List String) (text : String) :
    (chunk_text split encode ts text url pt hs).map (fun c => c.hash)
      = (split text).map (fun ct => sha256HexStr ct) := by
  unfold chunk_text
  rw [List.map_map, List.enum]
  exact map_enumFrom_snd (fun ct => sha256HexStr ct) 0 (split text)

/-- Claim C8.  For every input text, the hash TextChunker.chunk_text attaches to
each chunk is the SHA-256 hex digest of that chunk's text (UTF-8 bytes),
positionally, so chunking the same text with any other source_url,
page_title, section_headers, token counter or timestamp yields identical
hashes for corresponding chunks. -/
theorem chunk_hash_only_text (split : String → List String)
    (encode1 encode2 : String → Nat) (ts1 ts2 url1 url2 pt1 pt2 : String)
    (hs1 hs2 : List String) (text : String) :
    (chunk_text split encode1 ts1 text url1 pt1 hs1).map (fun c => c.hash)
      = (split text).map (fun ct => sha256HexStr ct) ∧
    (chunk_text split encode1 ts1 text url1 pt1 hs1).map (fun c => c.hash)
      = (chunk_text split encode2 ts2 text url2 pt2 hs2).map (fun c => c.hash) := by
  refine ⟨chunk_text_hash_eq split encode1 ts1 url1 pt1 hs1 text, ?_⟩
  rw [chunk_text_hash_eq, chunk_text_hash_eq]

/- ### C10: validate_metadata classifies every result exactly once -/

theorem checkField_nil_std (idx : Nat) (fname : String) (v : Option PyVal) :
    (checkField idx fname false v = []) ↔
      (match v with | some x => !pyFalsy x | none => false) = true := by
  rcases v with _ | x
  · simp [checkField]
  · by_cases hx : pyFalsy x <;> simp [checkField, hx]

theorem checkField_nil_ci (idx : Nat) (fname : String) (v : Option PyVal) :
    (checkField idx fname true v = []) ↔
      (match v with
       | some PyVal.pnone => false
       | some _ => true
       | none => false) = true := by
  rcases v with _ | x
  · simp [checkField]
  · cases x <;> simp [checkField]

theorem resultIssues_nil_iff (idx : Nat) (r : Option RMeta) :
    (resultIssues idx r = []) ↔ resultValidB r = true := by
  unfold resultIssues resultValidB
  rw [List.append_eq_nil, List.append_eq_nil, List.append_eq_nil]
  rw [checkField_nil_std, checkField_nil_std, checkField_nil_std, checkField_nil_ci]
  simp [Bool.and_eq_true, and_assoc]

theorem vmAux_counts : ∀ (rs : List (Option RMeta)) (idx : Nat),
    (vmAux idx rs).1 = rs.countP resultValidB ∧
    (vmAux idx rs).2.1 = rs.countP (fun r => !resultValidB r) := by
  intro rs
  induction rs with
  | nil => intro idx; simp [vmAux]
  | cons r rs ih =>
    intro idx
    have hi := ih (idx + 1)
    by_cases hv : resultValidB r = true
    · have hiss : (resultIssues idx r).isEmpty = true :=
        List.isEmpty_iff.mpr ((resultIssues_nil_iff idx r).mpr hv)
      simp [vmAux, hiss, List.countP_cons, hv, hi.1, hi.2]
    · have hiss : (resultIssues idx r).isEmpty = false := by
        rcases hne : (resultIssues idx r) with _ | ⟨a, l⟩
        · exact absurd ((resultIssues_nil_iff idx r).mp hne) hv
        · rfl
      simp [vmAux, hiss, List.countP_cons, hv, hi.1, hi.2]

/-- Claim C10.  validate_metadata counts every input result exactly once
(valid_results + invalid_results = total_results = input length), and a
result is counted valid exactly when resultValidB holds of it: source_url,
page_title and section_headers must be present and truthy, while
chunk_index need only be present and not None — so chunk_index = 0 is
valid, and a missing or falsy source_url / page_title / section_headers
makes the result invalid. -/
theorem validate_metadata_classifies (results : List (Option RMeta)) :
    (validate_metadata results).total_results = results.length ∧
    (validate_metadata results).valid_results + (validate_metadata results).invalid_results
      = (validate_metadata results).total_results ∧
    (validate_metadata results).valid_results = results.countP resultValidB ∧
    (validate_metadata results).invalid_results
      = results.countP (fun r => !resultValidB r) := by
  have h := vmAux_counts results 0
  refine ⟨rfl, ?_, ?_, ?_⟩
  · show (vmAux 0 results).1 + (vmAux 0 results).2.1 = results.length
    rw [h.1, h.2]
    have hnot : (fun a => (decide ¬resultValidB a = true : Bool)) = fun r => !resultValidB r := by
      funext a
      cases resultValidB a <;> simp
    have hlen := List.length_eq_countP_add_countP resultValidB results
    rw [hnot] at hlen
    exact hlen.symm
  · exact h.1
  · exact h.2

/- ### C5: out-of-range top_k / similarity_threshold raise before any call -/

/-- Claim C5.  RetrieverClient.search raises a ValueError (modelled as
Except.error) for top_k outside [1, 100], and for similarity_threshold
outside [0.0, 1.0] when top_k is in range; the result is the same for
every embedding and vector-index oracle, so no external call is consulted,
and no success response is produced (the value is never clamped). -/
theorem search_validates_ranges {Vec : Type} (eo : Nat → Option Vec) (m : Nat)
    (qs : Vec → Int → Except String (List QPointR)) (q : String) (k : Int) (t : Rat) :
    (¬(1 ≤ k ∧ k ≤ 100) →
      searchFn eo m qs q k t = Except.error "top_k must be between 1 and 100") ∧
    ((1 ≤ k ∧ k ≤ 100) → ¬(0 ≤ t ∧ t ≤ 1) →
      searchFn eo m qs q k t
        = Except.error "similarity_threshold must be between 0.0 and 1.0") := by
  constructor
  · intro hk
    unfold searchFn
    rw [if_pos hk]
  · intro hk ht
    unfold searchFn
    rw [if_neg (not_not_intro hk), if_pos ht]

theorem search_validates_ranges_witness :
    @searchFn Nat (fun _ => some 0) 3 (fun _ _ => Except.ok []) "q" 0 (1/2)
      = Except.error "top_k must be between 1 and 100" ∧
    @searchFn Nat (fun _ => some 0) 3 (fun _ _ => Except.ok []) "q" 101 (1/2)
      = Except.error "top_k must be between 1 and 100" ∧
    @searchFn Nat (fun _ => some 0) 3 (fun _ _ => Except.ok []) "q" 5 (3/2)
      = Except.error "similarity_threshold must be between 0.0 and 1.0" ∧
    @searchFn Nat (fun _ => some 0) 3 (fun _ _ => Except.ok []) "q" 5 (-1/10)
      = Except.error "similarity_threshold must be between 0.0 and 1.0" :=
  ⟨(search_validates_ranges (fun _ => some 0) 3 (fun _ _ => Except.ok []) "q" 0 (1/2)).1
      (by decide),
   (search_validates_ranges (fun _ => some 0) 3 (fun _ _ => Except.ok []) "q" 101 (1/2)).1
      (by decide),
   (search_validates_ranges (fun _ => some 0) 3 (fun _ _ => Except.ok []) "q" 5 (3/2)).2
      (by decide) (by norm_num),
   (search_validates_ranges (fun _ => some 0) 3 (fun _ _ => Except.ok []) "q" 5 (-1/10)).2
      (by decide) (by norm_num)⟩

/- ### C4: pipeline failures become structured error responses -/

theorem searchFn_in_range {Vec : Type} (eo : Nat → Option Vec) (m : Nat)
    (qs : Vec → Int → Except String (List QPointR)) (q : String) (k : Int) (t : Rat)
    (hk : 1 ≤ k ∧ k ≤ 100) (ht : 0 ≤ t ∧ t ≤ 1) :
    searchFn eo m qs q k t = Except.ok (searchPipeline eo m qs q k t) := by
  unfold searchFn
  rw [if_neg (not_not_intro hk), if_neg (not_not_intro ht)]

theorem searchPipeline_embed_error {Vec : Type} (eo : Nat → Option Vec) (m : Nat)
    (qs : Vec → Int → Except String (List QPointR)) (q : String) (k : Int) (t : Rat)
    (e : String) (he : embed_query eo m q = Except.error e) :
    searchPipeline eo m qs q k t = errorResponse q k e := by
  unfold searchPipeline
  rw [he]

theorem searchPipeline_qs_error {Vec : Type} (eo : Nat → Option Vec) (m : Nat)
    (qs : Vec → Int → Except String (List QPointR)) (q : String) (k : Int) (t : Rat)
    (v : Vec) (e : String) (hv : embed_query eo m q = Except.ok v)
    (he : qs v k = Except.error e) :
    searchPipeline eo m qs q k t = errorResponse q k e := by
  unfold searchPipeline
  rw [hv]
  show (match qs v k with
        | Except.error e => errorResponse q k e
        | Except.ok ps => successResponse q k (formatResults t ps)) = errorResponse q k e
  rw [he]

theorem searchPipeline_qs_ok {Vec : Type} (eo : Nat → Option Vec) (m : Nat)
    (qs : Vec → Int → Except String (List QPointR)) (q : String) (k : Int) (t : Rat)
    (v : Vec) (ps : List QPointR) (hv : embed_query eo m q = Except.ok v)
    (he : qs v k = Except.ok ps) :
    searchPipeline eo m qs q k t = successResponse q k (formatResults t ps) := by
  unfold searchPipeline
  rw [hv]
  show (match qs v k with
        | Except.error e => errorResponse q k e
        | Except.ok ps => successResponse q k (formatResults t ps))
      = successResponse q k (formatResults t ps)
  rw [he]

/-- Claim C4.  For in-range top_k and similarity_threshold, RetrieverClient.search
never propagates an exception from inside the try block: the call always
returns a response object; when the query embedding fails (including the
blank-query ValueError) or the vector search fails, that response is the
structured error response with status "error", empty results,
total_results 0 and the SEARCH_FAILED code carrying the exception
message. -/
theorem search_catches_pipeline_failures {Vec : Type} (eo : Nat → Option Vec) (m : Nat)
    (qs : Vec → Int → Except String (List QPointR)) (q : String) (k : Int) (t : Rat)
    (hk : 1 ≤ k ∧ k ≤ 100) (ht : 0 ≤ t ∧ t ≤ 1) :
    searchFn eo m qs q k t = Except.ok (searchPipeline eo m qs q k t) ∧
    (∀ e, embed_query eo m q = Except.error e →
      searchFn eo m qs q k t = Except.ok (errorResponse q k e) ∧
      (errorResponse q k e).status = "error" ∧
      (errorResponse q k e).results = [] ∧
      (errorResponse q k e).total_results = 0 ∧
      (errorResponse q k e).error_code = some "SEARCH_FAILED" ∧
      (errorResponse q k e).error_message = some e) ∧
    (∀ v e, embed_query eo m q = Except.ok v → qs v k = Except.error e →
      searchFn eo m qs q k t = Except.ok (errorResponse q k e)) ∧
    (blankQuery q = true →
      searchFn eo m qs q k t = Except.ok (errorResponse q k "Query cannot be empty")) := by
  have hin := searchFn_in_range eo m qs q k t hk ht
  refine ⟨hin, ?_, ?_, ?_⟩
  · intro e he
    rw [hin, searchPipeline_embed_error eo m qs q k t e he]
    exact ⟨rfl, rfl, rfl, rfl, rfl, rfl⟩
  · intro v e hv he
    rw [hin, searchPipeline_qs_error eo m qs q k t v e hv he]
  · intro hb
    have he : embed_query eo m q = Except.error "Query cannot be empty" := by
      unfold embed_query
      rw [if_pos hb]
    rw [hin, searchPipeline_embed_error eo m qs q k t _ he]

theorem search_catches_pipeline_failures_witness :
    @searchFn Nat (fun _ => none) 3 (fun _ _ => Except.ok []) "q" 5 (1/2)
      = Except.ok (errorResponse "q" 5 "Failed to embed query") ∧
    (errorResponse "q" 5 "Failed to embed query").status = "error" ∧
    (errorResponse "q" 5 "Failed to embed query").results = [] ∧
    (errorResponse "q" 5 "Failed to embed query").total_results = 0 ∧
    (errorResponse "q" 5 "Failed to embed query").error_code = some "SEARCH_FAILED" ∧
    (errorResponse "q" 5 "Failed to embed query").error_message
      = some "Failed to embed query" :=
  (search_catches_pipeline_failures (fun _ => none) 3 (fun _ _ => Except.ok []) "q" 5 (1/2)
    (by decide) (by norm_num)).2.1 "Failed to embed query" rfl

/- ### C3: ranking invariant of success responses -/

theorem formatLoop_score_ge (t : Rat) :
    ∀ (ps : List QPointR) (rk : Nat) (res : SearchResultR),
      res ∈ formatLoop t rk ps → t ≤ res.similarity_score := by
  intro ps
  induction ps with
  | nil => intro rk res h; simp [formatLoop] at h
  | cons p ps ih =>
    intro rk res h
    unfold formatLoop at h
    by_cases hp : t ≤ p.score
    · rw [if_pos hp] at h
      rcases List.mem_cons.mp h with hres | hres
      · subst hres; exact hp
      · exact ih _ _ hres
    · rw [if_neg hp] at h
      exact ih _ _ h

theorem formatLoop_ranks (t : Rat) :
    ∀ (ps : List QPointR) (rk : Nat),
      (formatLoop t rk ps).map (fun res => res.rank)
        = List.range' (rk + 1) (formatLoop t rk ps).length := by
  intro ps
  induction ps with
  | nil => intro rk; simp [formatLoop]
  | cons p ps ih =>
    intro rk
    unfold formatLoop
    by_cases hp : t ≤ p.score
    · rw [if_pos hp]
      show (rk + 1) :: (formatLoop t (rk + 1) ps).map (fun res => res.rank)
          = List.range' (rk + 1) ((formatLoop t (rk + 1) ps).length + 1)
      rw [List.range'_succ]
      exact congrArg (List.cons (rk + 1)) (ih (rk + 1))
    · rw [if_neg hp]
      exact ih rk

theorem formatLoop_scores_eq_filter (t : Rat) :
    ∀ (ps : List QPointR) (rk : Nat),
      (formatLoop t rk ps).map (fun res => res.similarity_score)
        = (ps.filter fun p => decide (t ≤ p.score)).map (fun p => p.score) := by
  intro ps
  induction ps with
  | nil => intro rk; simp [formatLoop]
  | cons p ps ih =>
    intro rk
    unfold formatLoop
    by_cases hp : t ≤ p.score
    · rw [if_pos hp]
      simp only [List.map_cons, List.filter_cons, decide_eq_true hp, if_pos, mkResult]
      exact congrArg (List.cons p.score) (ih (rk + 1))
    · rw [if_neg hp]
      rw [List.filter_cons]
      simp only [decide_eq_false hp]
      exact ih rk

/-- Claim C3.  Every response RetrieverClient.search returns with status
"success" satisfies the ranking invariant: each result's similarity_score
is at least the similarity_threshold of the call, the rank values are
exactly 1..total_results (dense, 1-based), similarity_score is
non-increasing along the result list, and total_results is the length of
the result list.  The only assumption on the vector index is its
documented contract: hits come back in descending score order. -/
theorem search_ranking_invariant {Vec : Type} (eo : Nat → Option Vec) (m : Nat)
    (qs : Vec → Int → Except String (List QPointR)) (q : String) (k : Int) (t : Rat)
    (r : SearchResp)
    (hsorted : ∀ v ps, qs v k = Except.ok ps → ps.Pairwise (fun a b => b.score ≤ a.score))
    (hr : searchFn eo m qs q k t = Except.ok r) (hs : r.status = "success") :
    (∀ res ∈ r.results, t ≤ res.similarity_score) ∧
    r.results.map (fun res => res.rank) = List.range' 1 r.total_results ∧
    (r.results.map fun res => res.similarity_score).Pairwise (fun a b => b ≤ a) ∧
    r.total_results = r.results.length := by
  unfold searchFn at hr
  by_cases hk : ¬(1 ≤ k ∧ k ≤ 100)
  · rw [if_pos hk] at hr; cases hr
  · rw [if_neg hk] at hr
    by_cases ht : ¬(0 ≤ t ∧ t ≤ 1)
    · rw [if_pos ht] at hr; cases hr
    · rw [if_neg ht] at hr
      injection hr with hr
      rcases hemb : embed_query eo m q with e | v
      · rw [searchPipeline_embed_error eo m qs q k t e hemb] at hr
        subst hr
        exact absurd (show ("error" : String) = "success" from hs) (by decide)
      · rcases hqs : qs v k with e | ps
        · rw [searchPipeline_qs_error eo m qs q k t v e hemb hqs] at hr
          subst hr
          exact absurd (show ("error" : String) = "success" from hs) (by decide)
        · rw [searchPipeline_qs_ok eo m qs q k t v ps hemb hqs] at hr
          subst hr
          refine ⟨?_, ?_, ?_, rfl⟩
          · intro res hres
            exact formatLoop_score_ge t ps 0 res hres
          · exact formatLoop_ranks t ps 0
          · have hp : ps.Pairwise (fun a b => b.score ≤ a.score) := hsorted v ps hqs
            have hfilter := hp.filter (fun p => decide (t ≤ p.score))
            show ((formatLoop t 0 ps).map fun res => res.similarity_score).Pairwise
              (fun a b => b ≤ a)
            rw [formatLoop_scores_eq_filter t ps 0]
            exact List.pairwise_map.mpr hfilter

def c3pointHigh : QPointR :=
  { pid := "id1", score := mkRat 4 5, payload_chunk_text := some "t1",
    payload_source_url := some "u1", payload_page_title := some "p1",
    payload_section_headers := some ["h1"], payload_chunk_index := some 0 }

def c3pointLow : QPointR :=
  { pid := "id2", score := mkRat 2 5, payload_chunk_text := some "t2",
    payload_source_url := some "u2", payload_page_title := some "p2",
    payload_section_headers := some ["h2"], payload_chunk_index := some 1 }

def c3resp : SearchResp :=
  successResponse "q" 5 (formatResults (mkRat 1 2) [c3pointHigh, c3pointLow])

theorem search_ranking_invariant_witness :
    (∀ res ∈ c3resp.results, mkRat 1 2 ≤ res.similarity_score) ∧
    c3resp.results.map (fun res => res.rank) = List.range' 1 c3resp.total_results ∧
    (c3resp.results.map fun res => res.similarity_score).Pairwise (fun a b => b ≤ a) ∧
    c3resp.total_results = c3resp.results.length :=
  search_ranking_invariant (fun _ => some 0) 3
    (fun _ _ => Except.ok [c3pointHigh, c3pointLow]) "q" 5 (mkRat 1 2) c3resp
    (fun v ps h => by
      injection h with h
      subst h
      simp only [List.pairwise_cons, List.mem_singleton, List.not_mem_nil,
        List.Pairwise.nil, c3pointHigh, c3pointLow]
      refine ⟨?_, ?_, trivial⟩
      · intro b hb
        subst hb
        decide
      · intro b hb
        exact hb.elim)
    (by rfl) rfl

/- ### C2: per-batch failure recording in embed_chunks -/

/-- Claim C2 counterexample.  A single batch (["a"], batch length 1) whose three
allowed attempts all hit the rate limit is excluded from the returned
vector list and the job does not abort, but its length is NOT added to the
failed statistic: stats.failed stays 0 where the claim requires it to
become 1 (the successful statistic also stays 0, so the counters no longer
account for the batch at all). -/
theorem embed_chunks_rate_limit_not_recorded :
    (@embed_chunks Nat (fun _ _ => EmbedOutcome.rateLimit) 96 3 ["a"]).1 = [] ∧
    (@embed_chunks Nat (fun _ _ => EmbedOutcome.rateLimit) 96 3 ["a"]).2.failed = 0 ∧
    (@embed_chunks Nat (fun _ _ => EmbedOutcome.rateLimit) 96 3 ["a"]).2.successful = 0 ∧
    ¬((@embed_chunks Nat (fun _ _ => EmbedOutcome.rateLimit) 96 3 ["a"]).2.failed
        = (["a"] : List String).length) := by
  refine ⟨rfl, rfl, rfl, ?_⟩
  decide

/-- Does the batch retry loop end in success? -/
def batchOk {Vec : Type} : BatchClass Vec → Bool
  | .ok _ => true
  | _ => false

/-- Does the batch retry loop end recording a failure (generic error on the
last attempt)? -/
def batchRecFailed {Vec : Type} : BatchClass Vec → Bool
  | .recFailed => true
  | _ => false

/-- Vectors contributed by a batch (empty unless the loop succeeded). -/
def batchVectors {Vec : Type} : BatchClass Vec → List Vec
  | .ok vs => vs
  | _ => []

theorem embedBatches_spec {Vec : Type} (oracle : Nat → Nat → EmbedOutcome Vec) (m : Nat) :
    ∀ (bs : List (List String)) (i : Nat),
      (embedBatches oracle m i bs).1
        = ((List.enumFrom i bs).map fun p =>
            batchVectors (classifyAttempts ((List.range m).map (oracle p.1)))).flatten ∧
      (embedBatches oracle m i bs).2.1
        = (((List.enumFrom i bs).filter fun p =>
            batchOk (classifyAttempts ((List.range m).map (oracle p.1)))).map
              fun p => p.2.length).sum ∧
      (embedBatches oracle m i bs).2.2.1
        = (((List.enumFrom i bs).filter fun p =>
            batchRecFailed (classifyAttempts ((List.range m).map (oracle p.1)))).map
              fun p => p.2.length).sum := by
  intro bs
  induction bs with
  | nil => intro i; exact ⟨rfl, rfl, rfl⟩
  | cons b bs ih =>
    intro i
    have hi := ih (i + 1)
    rcases hc : classifyAttempts ((List.range m).map (oracle i)) with vs | _ | _ <;>
      simp [embedBatches, hc, List.enumFrom_cons, List.filter_cons, batchOk, batchRecFailed,
        batchVectors, hi.1, hi.2.1, hi.2.2]

/-- Claim C2 as amended.  embed_chunks accounts for every batch independently and
continues past failed batches: the returned vectors are exactly the
concatenated vectors of the batches whose retry loop succeeded; the failed
statistic is the summed length of exactly those batches whose retries were
exhausted by a generic error on the final attempt; the successful
statistic is the summed length of succeeding batches; total_chunks is the
input length.  A batch whose retries are exhausted by rate-limit signals
is excluded from the output and processing continues, but it contributes
to neither statistic (this is the one departure from the original
claim). -/
theorem embed_chunks_accounting {Vec : Type} (oracle : Nat → Nat → EmbedOutcome Vec)
    (bsz m : Nat) (chunks : List String) :
    (embed_chunks oracle bsz m chunks).1
      = (((toBatches (min bsz 96) chunks).enum.map fun p =>
          batchVectors (classifyAttempts ((List.range m).map (oracle p.1)))).flatten) ∧
    (embed_chunks oracle bsz m chunks).2.failed
      = ((((toBatches (min bsz 96) chunks).enum.filter fun p =>
          batchRecFailed (classifyAttempts ((List.range m).map (oracle p.1)))).map
            fun p => p.2.length).sum) ∧
    (embed_chunks oracle bsz m chunks).2.successful
      = ((((toBatches (min bsz 96) chunks).enum.filter fun p =>
          batchOk (classifyAttempts ((List.range m).map (oracle p.1)))).map
            fun p => p.2.length).sum) ∧
    (embed_chunks oracle bsz m chunks).2.total_chunks = chunks.length := by
  have h := embedBatches_spec oracle m (toBatches (min bsz 96) chunks) 0
  exact ⟨h.1, h.2.2, h.2.1, rfl⟩

/- ### C6: determinism and collisions of generate_point_id -/

theorem be32_length (n : Nat) : (be32 n).length = 4 := rfl

theorem sha256Bytes_length (msg : List Nat) : (sha256Bytes msg).length = 32 := by
  unfold sha256Bytes
  simp [be32]

theorem flatten_byteToHex_length :
    ∀ (l : List Nat), ((l.map byteToHex).flatten).length = 2 * l.length := by
  intro l
  induction l with
  | nil => rfl
  | cons b bs ih =>
    show (byteToHex b ++ (bs.map byteToHex).flatten).length = 2 * (bs.length + 1)
    have hb : (byteToHex b).length = 2 := rfl
    rw [List.length_append, hb, ih]
    omega

theorem sha256HexChars_length (msg : List Nat) : (sha256HexChars msg).length = 64 := by
  unfold sha256HexChars
  rw [flatten_byteToHex_length, sha256Bytes_length]

theorem split32 (h : List Char) :
    h = h.take 8 ++ ((h.drop 8).take 4 ++ ((h.drop 12).take 4 ++
      ((h.drop 16).take 4 ++ h.drop 20))) := by
  have a1 : h.take 8 ++ h.drop 8 = h := List.take_append_drop 8 h
  have a2 : (h.drop 8).take 4 ++ (h.drop 8).drop 4 = h.drop 8 :=
    List.take_append_drop 4 (h.drop 8)
  have b2 : (h.drop 8).drop 4 = h.drop 12 := by rw [List.drop_drop]
  have a3 : (h.drop 12).take 4 ++ (h.drop 12).drop 4 = h.drop 12 :=
    List.take_append_drop 4 (h.drop 12)
  have b3 : (h.drop 12).drop 4 = h.drop 16 := by rw [List.drop_drop]
  have a4 : (h.drop 16).take 4 ++ (h.drop 16).drop 4 = h.drop 16 :=
    List.take_append_drop 4 (h.drop 16)
  have b4 : (h.drop 16).drop 4 = h.drop 20 := by rw [List.drop_drop]
  rw [← b4, a4, ← b3, a3, ← b2, a2, a1]

theorem uuidFromHex_inj (h1 h2 : List Char) (l1 : h1.length = 32) (l2 : h2.length = 32)
    (he : uuidFromHex h1 = uuidFromHex h2) : h1 = h2 := by
  unfold uuidFromHex at he
  have t1 : (h1.take 8).length = (h2.take 8).length := by
    simp [List.length_take, l1, l2]
  obtain ⟨e1, he⟩ := List.append_inj he t1
  injection he with hh he
  have t2 : ((h1.drop 8).take 4).length = ((h2.drop 8).take 4).length := by
    simp [List.length_take, List.length_drop, l1, l2]
  obtain ⟨e2, he⟩ := List.append_inj he t2
  injection he with hh he
  have t3 : ((h1.drop 12).take 4).length = ((h2.drop 12).take 4).length := by
    simp [List.length_take, List.length_drop, l1, l2]
  obtain ⟨e3, he⟩ := List.append_inj he t3
  injection he with hh he
  have t4 : ((h1.drop 16).take 4).length = ((h2.drop 16).take 4).length := by
    simp [List.length_take, List.length_drop, l1, l2]
  obtain ⟨e4, e5⟩ := List.append_inj he t4
  injection e5 with hh e5
  calc h1 = h1.take 8 ++ ((h1.drop 8).take 4 ++ ((h1.drop 12).take 4 ++
            ((h1.drop 16).take 4 ++ h1.drop 20))) := split32 h1
    _ = h2.take 8 ++ ((h2.drop 8).take 4 ++ ((h2.drop 12).take 4 ++
            ((h2.drop 16).take 4 ++ h2.drop 20))) := by rw [e1, e2, e3, e4, e5]
    _ = h2 := (split32 h2).symm

/-- Claim C6 counterexample.  generate_point_id is NOT injective on (text, url)
pairs: because the hashed string is the bare concatenation "{url}:{text}",
the distinct argument pairs (text="b:c", url="a") and (text="c",
url="a:b") produce the identical point id, so two calls differing in both
text and url can return the same id. -/
theorem generate_point_id_colon_collision :
    generate_point_id "b:c" "a" = generate_point_id "c" "a:b" ∧
    ¬("b:c" = "c" ∧ "a" = "a:b") :=
  ⟨rfl, by decide⟩

/-- Claim C6 as amended.  generate_point_id is a pure deterministic function of
the combined string "{url}:{text}": two ids are equal exactly when the
first 32 hex characters of the SHA-256 digests of the combined strings are
equal.  Identical arguments therefore always give the identical id, and
two calls give distinct ids whenever those digest prefixes differ — but
distinct (text, url) pairs with the same concatenation (and digest-prefix
collisions) give the same id. -/
theorem generate_point_id_eq_iff (t1 u1 t2 u2 : String) :
    generate_point_id t1 u1 = generate_point_id t2 u2 ↔
      (sha256HexChars (strUtf8 (u1 ++ ":" ++ t1))).take 32
        = (sha256HexChars (strUtf8 (u2 ++ ":" ++ t2))).take 32 := by
  constructor
  · intro he
    have he' : uuidFromHex ((sha256HexChars (strUtf8 (u1 ++ ":" ++ t1))).take 32)
        = uuidFromHex ((sha256HexChars (strUtf8 (u2 ++ ":" ++ t2))).take 32) :=
      congrArg String.data he
    refine uuidFromHex_inj _ _ ?_ ?_ he'
    · simp [List.length_take, sha256HexChars_length]
    · simp [List.length_take, sha256HexChars_length]
  · intro he
    exact congrArg (fun l => (⟨uuidFromHex l⟩ : String)) he

/- ### C1: checkpoint marking versus durable storage -/

/-- A concrete run exhibiting the C1 failure: one page whose text splits
into two chunks "A" and "B", batch size 1, one attempt per batch; the
provider fails chunk A's batch with a generic error and embeds chunk B's
batch as vector 7; collection init, upsert and checkpoint writes all
succeed. -/
def c1run : Except String (RunOutcome Nat) :=
  pipelineRun (fun _ => ["A", "B"]) (fun _ => 1) "t"
    [{ url := "u", page_title := "p", section_headers := ["h"], extracted_text := "AB" }]
    { visited := 1, failed := 0, failed_details := [] }
    (fun i _ => if i = 0 then EmbedOutcome.genericError else EmbedOutcome.success [7])
    1 1 true true true (Except.ok (1, "green")) false []

/-- Claim C1 fails on the code (a code bug).  In c1run, chunk "B" was embedded
successfully but never upserted: the zip in upsert_embeddings pairs chunk
"A" (whose own batch failed) with B's vector 7, inserts exactly that one
misaligned point, and the marking loop then marks BOTH hashes — so the
checkpoint contains the hash of chunk "B" although no point for "B" was
ever durably stored, violating the claimed invariant that a hash is
marked processed only after its chunk's storage write succeeded. -/
theorem pipeline_marks_unstored_chunk :
    (runUpserted c1run).map (fun p => p.p_chunk_text) = ["A"] ∧
    (runUpserted c1run).map (fun p => p.vector) = [7] ∧
    ((runUpserted c1run).map (fun p => p.p_chunk_text)).contains "B" = false ∧
    (runCheckpoint c1run).contains (sha256HexStr "B") = true ∧
    runInsertedCount c1run = some 1 ∧
    runNewCount c1run = some 2 := by
  refine ⟨rfl, rfl, rfl, ?_, rfl, rfl⟩
  decide

/- ### C7: idempotent re-ingestion -/

theorem mark_processed_eq_setAdd (wk : Bool) (cp : List String) (h : String) :
    mark_processed wk cp h = setAdd cp h := by
  cases wk <;> rfl

theorem setAdd_preserves (cp : List String) (h x : String) (hx : cp.contains x = true) :
    (setAdd cp h).contains x = true := by
  unfold setAdd
  split
  · exact hx
  · rw [List.contains_cons]
    simp only [Bool.or_eq_true]
    exact Or.inr hx

theorem markAll_cons (wk : Bool) (cp : List String) (c : ChunkRec) (cs : List ChunkRec) :
    markAll wk cp (c :: cs) = markAll wk (setAdd cp c.hash) cs := by
  unfold markAll
  rw [List.foldl_cons, mark_processed_eq_setAdd]

theorem markAll_preserves (wk : Bool) :
    ∀ (chunks : List ChunkRec) (cp : List String) (x : String),
      cp.contains x = true → (markAll wk cp chunks).contains x = true := by
  intro chunks
  induction chunks with
  | nil => intro cp x hx; exact hx
  | cons c cs ih =>
    intro cp x hx
    rw [markAll_cons]
    exact ih _ x (setAdd_preserves _ _ _ hx)

theorem markAll_adds (wk : Bool) :
    ∀ (chunks : List ChunkRec) (cp : List String) (c : ChunkRec),
      c ∈ chunks → (markAll wk cp chunks).contains c.hash = true := by
  intro chunks
  induction chunks with
  | nil => intro cp c hc; exact absurd hc (List.not_mem_nil c)
  | cons c0 cs ih =>
    intro cp c hc
    rw [markAll_cons]
    rcases List.mem_cons.mp hc with rfl | hmem
    · exact markAll_preserves wk cs _ _ (setAdd_mem_self cp c.hash)
    · exact ih _ c hmem

theorem mem_newChunks (cp : List String) (chunks : List ChunkRec) (c : ChunkRec)
    (hc : c ∈ chunks) (hp : cp.contains c.hash = false) : c ∈ newChunks cp chunks := by
  unfold newChunks
  rw [List.mem_filter]
  refine ⟨hc, ?_⟩
  simp only [is_processed, hp]
  rfl

theorem newChunks_nil_covered (cp : List String) (chunks : List ChunkRec)
    (hn : newChunks cp chunks = []) :
    ∀ c ∈ chunks, cp.contains c.hash = true := by
  intro c hc
  have h := List.filter_eq_nil_iff.mp hn c hc
  simp only [is_processed, Bool.not_eq_true'] at h
  simpa using h

theorem newChunks_nil_of_covered (cp : List String) (chunks : List ChunkRec)
    (hcov : ∀ c ∈ chunks, cp.contains c.hash = true) : newChunks cp chunks = [] := by
  unfold newChunks
  rw [List.filter_eq_nil_iff]
  intro c hc
  simp only [is_processed, hcov c hc]
  decide

theorem allChunks_hash_eq (split : String → List String) (encode1 encode2 : String → Nat)
    (ts1 ts2 : String) :
    ∀ (pages : List PageRec),
      (allChunks split encode1 ts1 pages).map (fun c => c.hash)
        = (allChunks split encode2 ts2 pages).map (fun c => c.hash) := by
  intro pages
  induction pages with
  | nil => rfl
  | cons p ps ih =>
    show ((chunk_text split encode1 ts1 p.extracted_text p.url p.page_title p.section_headers
          ++ allChunks split encode1 ts1 ps).map fun c => c.hash)
        = ((chunk_text split encode2 ts2 p.extracted_text p.url p.page_title p.section_headers
          ++ allChunks split encode2 ts2 ps).map fun c => c.hash)
    rw [List.map_append, List.map_append, ih, chunk_text_hash_eq, chunk_text_hash_eq]

theorem classify_success {Vec : Type} (vs : List Vec) (rest : List (EmbedOutcome Vec)) :
    classifyAttempts (EmbedOutcome.success vs :: rest) = BatchClass.ok vs := by
  cases rest <;> rfl

theorem embedBatches_cons {Vec : Type} (oracle : Nat → Nat → EmbedOutcome Vec) (m i : Nat)
    (b : List String) (bs : List (List String)) :
    embedBatches oracle m i (b :: bs)
      = match classifyAttempts ((List.range m).map (oracle i)) with
        | BatchClass.ok vs =>
            (vs ++ (embedBatches oracle m (i + 1) bs).1,
             b.length + (embedBatches oracle m (i + 1) bs).2.1,
             (embedBatches oracle m (i + 1) bs).2.2.1,
             (embedBatches oracle m (i + 1) bs).2.2.2)
        | BatchClass.recFailed =>
            ((embedBatches oracle m (i + 1) bs).1,
             (embedBatches oracle m (i + 1) bs).2.1,
             b.length + (embedBatches oracle m (i + 1) bs).2.2.1,
             b.take 5 ++ (embedBatches oracle m (i + 1) bs).2.2.2)
        | BatchClass.dropped => embedBatches oracle m (i + 1) bs := by
  show embedBatches oracle m i (b :: bs) = _
  rcases hc : classifyAttempts ((List.range m).map (oracle i)) with vs | _ | _ <;>
    simp [embedBatches, hc]

theorem embedStage_fst_ne_nil {Vec : Type} (eo : Nat → Nat → EmbedOutcome Vec) (bsz m : Nat)
    (hm : 0 < m) (heo : ∀ i j, ∃ vs, eo i j = EmbedOutcome.success vs ∧ vs ≠ [])
    (cN : List ChunkRec) (hne : cN ≠ []) : (embedStage eo bsz m cN).1 ≠ [] := by
  rcases cN with _ | ⟨c, cs⟩
  · exact absurd rfl hne
  · obtain ⟨vs, hvs, hvne⟩ := heo 0 0
    rcases m with _ | k
    · exact absurd hm (lt_irrefl 0)
    · have hhead : ∃ rest, (List.range (k + 1)).map (eo 0) = eo 0 0 :: rest := by
        rw [List.range_succ_eq_map, List.map_cons]
        exact ⟨_, rfl⟩
      obtain ⟨rest, hrest⟩ := hhead
      have hcl : classifyAttempts ((List.range (k + 1)).map (eo 0)) = BatchClass.ok vs := by
        rw [hrest, hvs]
        exact classify_success vs rest
      show (embed_chunks eo bsz (k + 1) ((c :: cs).map fun x => x.text)).1 ≠ []
      have hb : toBatches (min bsz 96) ((c :: cs).map fun x => x.text)
          = ((c.text :: cs.map fun x => x.text).take (min bsz 96)) ::
            toBatchesAux (min bsz 96) (cs.map fun x => x.text).length
              ((c.text :: cs.map fun x => x.text).drop (min bsz 96)) := rfl
      show (embedBatches eo (k + 1) 0 (toBatches (min bsz 96) ((c :: cs).map fun x => x.text))).1
          ≠ []
      rw [hb, embedBatches_cons, hcl]
      intro hcon
      exact hvne (List.append_eq_nil.mp hcon).1

/-- Inversion of pipelineRun in the non-raising case: collection init
succeeds, the batched upsert write succeeds, and the verify-stage read
succeeds, so the run returns the report, the final checkpoint and the
upserted points in terms of the stage functions. -/
theorem pipelineRun_ok_parts {Vec : Type} (split : String → List String)
    (encode : String → Nat) (ts : String) (pages : List PageRec) (cstats : CrawlStats)
    (eo : Nat → Nat → EmbedOutcome Vec) (bsz m : Nat) (wk : Bool) (st : Nat × String)
    (clear : Bool) (cp0 : List String) (cp1 : List String) (cN : List ChunkRec)
    (er : List Vec × EStats)
    (hcp1 : cp1 = if clear then [] else cp0)
    (hcN : cN = newChunks cp1 (allChunks split encode ts pages))
    (her : er = embedStage eo bsz m cN) :
    pipelineRun split encode ts pages cstats eo bsz m true true wk (Except.ok st) clear cp0
      = Except.ok
        { report := buildReport cstats (allChunks split encode ts pages) cN er.2
            (if ingestCondition cN er.1 then (mkPoints cN er.1).length else 0) st,
          checkpoint := if ingestCondition cN er.1 then markAll wk cp1 cN else cp1,
          upserted := if ingestCondition cN er.1 then mkPoints cN er.1 else [] } := by
  subst her
  subst hcN
  subst hcp1
  unfold pipelineRun
  rw [if_neg (fun h => Bool.noConfusion h)]
  cases hcond : ingestCondition
      (newChunks (if clear then [] else cp0) (allChunks split encode ts pages))
      (embedStage eo bsz m
        (newChunks (if clear then [] else cp0) (allChunks split encode ts pages))).1 <;>
    simp [upsert_embeddings]

theorem isEmpty_false_of_ne_nil {α : Type} (l : List α) (h : l ≠ []) : l.isEmpty = false := by
  cases l
  · exact absurd rfl h
  · rfl

/-- After a run whose embedding provider succeeds on every call (and whose
init / upsert / verify effects succeed), every chunk of the crawled
content has its hash in the final checkpoint. -/
theorem runCheckpoint_covers {Vec : Type} (split : String → List String)
    (encode : String → Nat) (ts : String) (pages : List PageRec) (cstats : CrawlStats)
    (eo : Nat → Nat → EmbedOutcome Vec) (bsz m : Nat) (wk : Bool) (st : Nat × String)
    (clear : Bool) (cp0 : List String)
    (hm : 0 < m) (heo : ∀ i j, ∃ vs, eo i j = EmbedOutcome.success vs ∧ vs ≠ []) :
    ∀ c ∈ allChunks split encode ts pages,
      (runCheckpoint (pipelineRun split encode ts pages cstats eo bsz m true true wk
        (Except.ok st) clear cp0)).contains c.hash = true := by
  intro c hc
  have hrun := pipelineRun_ok_parts split encode ts pages cstats eo bsz m wk st clear cp0
    _ _ _ rfl rfl rfl
  rw [hrun]
  simp only [runCheckpoint]
  generalize (if clear = true then ([] : List String) else cp0) = cp1
  split
  · rename_i hcond
    by_cases hp : cp1.contains c.hash = true
    · exact markAll_preserves wk _ _ _ hp
    · refine markAll_adds wk _ _ c (mem_newChunks _ _ c hc ?_)
      simpa using hp
  · rename_i hcond
    rcases hN : newChunks cp1 (allChunks split encode ts pages) with _ | ⟨c0, cs⟩
    · exact newChunks_nil_covered _ _ hN c hc
    · exfalso
      apply hcond
      have hnonnil : newChunks cp1 (allChunks split encode ts pages) ≠ [] := by
        rw [hN]
        exact fun hx => List.noConfusion hx
      have hE := embedStage_fst_ne_nil eo bsz m hm heo _ hnonnil
      unfold ingestCondition
      rw [isEmpty_false_of_ne_nil _ hnonnil, isEmpty_false_of_ne_nil _ hE]
      rfl

/-- Claim C7.  Idempotent ingestion: a second run over the same pages, with the
same chunker configuration (split / encode) but arbitrary new timestamps,
crawl statistics and embedding provider, starting from the checkpoint left
by a first run whose embedding provider succeeded on every call, filters
every chunk out by checkpoint: the second report has new_chunks = 0 and
total_points_inserted = 0, and the second run upserts no points at
all. -/
theorem ingestion_idempotent {Vec1 Vec2 : Type} (split : String → List String)
    (encode : String → Nat) (ts1 ts2 : String) (pages : List PageRec)
    (cs1 cs2 : CrawlStats) (eo1 : Nat → Nat → EmbedOutcome Vec1)
    (eo2 : Nat → Nat → EmbedOutcome Vec2) (bsz m : Nat) (w1 w2 : Bool)
    (st1 st2 : Nat × String) (clear1 : Bool) (cp0 : List String)
    (hm : 0 < m)
    (heo : ∀ i j, ∃ vs, eo1 i j = EmbedOutcome.success vs ∧ vs ≠ []) :
    runNewCount (pipelineRun split encode ts2 pages cs2 eo2 bsz m true true w2
        (Except.ok st2) false
        (runCheckpoint (pipelineRun split encode ts1 pages cs1 eo1 bsz m true true w1
          (Except.ok st1) clear1 cp0)))
      = some 0 ∧
    runInsertedCount (pipelineRun split encode ts2 pages cs2 eo2 bsz m true true w2
        (Except.ok st2) false
        (runCheckpoint (pipelineRun split encode ts1 pages cs1 eo1 bsz m true true w1
          (Except.ok st1) clear1 cp0)))
      = some 0 ∧
    runUpserted (pipelineRun split encode ts2 pages cs2 eo2 bsz m true true w2
        (Except.ok st2) false
        (runCheckpoint (pipelineRun split encode ts1 pages cs1 eo1 bsz m true true w1
          (Except.ok st1) clear1 cp0)))
      = [] := by
  have hcov1 := runCheckpoint_covers split encode ts1 pages cs1 eo1 bsz m w1 st1 clear1 cp0
    hm heo
  have hhash := allChunks_hash_eq split encode encode ts2 ts1 pages
  have hcov2 : ∀ c ∈ allChunks split encode ts2 pages,
      (runCheckpoint (pipelineRun split encode ts1 pages cs1 eo1 bsz m true true w1
        (Except.ok st1) clear1 cp0)).contains c.hash = true := by
    intro c hc
    have hmem : c.hash ∈ (allChunks split encode ts2 pages).map (fun c => c.hash) :=
      List.mem_map_of_mem _ hc
    rw [hhash] at hmem
    obtain ⟨c1, hc1, he⟩ := List.mem_map.mp hmem
    rw [← he]
    exact hcov1 c1 hc1
  have hN2 : newChunks
      (runCheckpoint (pipelineRun split encode ts1 pages cs1 eo1 bsz m true true w1
        (Except.ok st1) clear1 cp0))
      (allChunks split encode ts2 pages) = [] :=
    newChunks_nil_of_covered _ _ hcov2
  have hrun2 := pipelineRun_ok_parts split encode ts2 pages cs2 eo2 bsz m w2 st2 false
    (runCheckpoint (pipelineRun split encode ts1 pages cs1 eo1 bsz m true true w1
      (Except.ok st1) clear1 cp0))
    (runCheckpoint (pipelineRun split encode ts1 pages cs1 eo1 bsz m true true w1
      (Except.ok st1) clear1 cp0))
    [] (([] : List Vec2), (⟨0, 0, 0, []⟩ : EStats))
    rfl hN2.symm rfl
  refine ⟨?_, ?_, ?_⟩ <;> rw [hrun2] <;> rfl

def c7split : String → List String := fun _ => ["A"]

def c7encode : String → Nat := fun _ => 1

def c7pages : List PageRec :=
  [{ url := "u", page_title := "p", section_headers := ["h"], extracted_text := "A" }]

def c7cs : CrawlStats := { visited := 1, failed := 0, failed_details := [] }

def c7eo1 : Nat → Nat → EmbedOutcome Nat := fun _ _ => EmbedOutcome.success [5]

def c7eo2 : Nat → Nat → EmbedOutcome Nat := fun _ _ => EmbedOutcome.rateLimit

theorem ingestion_idempotent_witness :
    runNewCount (pipelineRun c7split c7encode "t2" c7pages c7cs c7eo2 96 3 true true true
        (Except.ok (1, "green")) false
        (runCheckpoint (pipelineRun c7split c7encode "t1" c7pages c7cs c7eo1 96 3 true true
          true (Except.ok (1, "green")) true [])))
      = some 0 ∧
    runInsertedCount (pipelineRun c7split c7encode "t2" c7pages c7cs c7eo2 96 3 true true true
        (Except.ok (1, "green")) false
        (runCheckpoint (pipelineRun c7split c7encode "t1" c7pages c7cs c7eo1 96 3 true true
          true (Except.ok (1, "green")) true [])))
      = some 0 ∧
    runUpserted (pipelineRun c7split c7encode "t2" c7pages c7cs c7eo2 96 3 true true true
        (Except.ok (1, "green")) false
        (runCheckpoint (pipelineRun c7split c7encode "t1" c7pages c7cs c7eo1 96 3 true true
          true (Except.ok (1, "green")) true [])))
      = [] :=
  ingestion_idempotent c7split c7encode "t1" "t2" c7pages c7cs c7cs c7eo1 c7eo2 96 3
    true true (1, "green") (1, "green") true [] (by decide)
    (fun i j => ⟨[5], rfl, by decide⟩)
